import Mathlib

/-!
Shallow embedding of the core of the django-mega-tutorial repository:
the per-user slug allocator (src/links/models.py, src/links/forms.py),
the Celery retry contract for delivery tasks (src/core/tasks.py,
src/links/tasks.py, src/config/settings.py), and the public redirect
view's exception clause (src/links/views.py).
-/

namespace DjangoMegaTutorial

/-! ### Slug generation (src/links/models.py, lines 8-13) -/

/-- The constant `SLUG_ALPHABET = string.ascii_lowercase + string.digits`:
26 lowercase letters followed by 10 digits, 36 characters in total. -/
def SLUG_ALPHABET : List Char := "abcdefghijklmnopqrstuvwxyz0123456789".toList

/-- The constant `SLUG_LENGTH = 10` from src/links/models.py line 9. -/
def SLUG_LENGTH : Nat := 10

/-- One draw of `secrets.choice(SLUG_ALPHABET)`: the random source is modelled
as an index into the 36-character alphabet. The default is never used because
every index is below 36, the length of `SLUG_ALPHABET`. -/
def slugChar (k : Fin 36) : Char := SLUG_ALPHABET.getD k.val 'a'

/-- The function `generate_slug(length)`: joins `length` independent draws of
`secrets.choice(SLUG_ALPHABET)`. The secure random source is modelled as a
stream `r : Nat → Fin 36` of alphabet indices; draw `i` consumes `r i`. -/
def generate_slug (r : Nat → Fin 36) (length : Nat) : String :=
  String.mk ((List.range length).map (fun i => slugChar (r i)))

/-! ### The Link store (src/links/models.py, class Link) -/

/-- One stored `Link` row: the fields relevant to allocation.  Users are
identified by their primary key. -/
structure LinkRec where
  user : Nat
  slug : String
  target_url : String
deriving DecidableEq, Repr

/-- The persisted set of `Link` rows. -/
abbrev Store := List LinkRec

/-- The query `Link.objects.filter(user=..., slug=...).exists()`. -/
def slugExists (store : Store) (user : Nat) (slug : String) : Bool :=
  store.any (fun l => l.user == user && l.slug == slug)

/-- The error taxonomy of an allocation attempt.  `invalidSlugFormat` is the
field-validation error, `slugAlreadyTaken` the `clean_slug` validation error,
`allocationExhausted` the `RuntimeError` raised by `_generate_unique_slug`,
and `integrityError` the database error raised when an INSERT violates the
`unique_link_slug_per_user` constraint. -/
inductive AllocError where
  | invalidSlugFormat
  | slugAlreadyTaken
  | allocationExhausted
  | integrityError
deriving DecidableEq, Repr

/-- An INSERT into the store.  The `Link.Meta` constraint
`UniqueConstraint(fields=["user", "slug"], name="unique_link_slug_per_user")`
makes the database reject a row whose `(user, slug)` pair is already present,
raising `IntegrityError`. -/
def dbInsert (store : Store) (l : LinkRec) : Except AllocError Store :=
  if slugExists store l.user l.slug then .error .integrityError
  else .ok (l :: store)

/-- Candidate number `i` of `_generate_unique_slug`: each loop iteration calls
`generate_slug(length=SLUG_LENGTH)` on fresh randomness, so candidate `i`
consumes the indices `i * SLUG_LENGTH, ..., i * SLUG_LENGTH + SLUG_LENGTH - 1`
of the stream. -/
def slugCandidate (r : Nat → Fin 36) (i : Nat) : String :=
  generate_slug (fun j => r (i * SLUG_LENGTH + j)) SLUG_LENGTH

/-- The loop of `Link._generate_unique_slug`: `k` remaining iterations, next
candidate index `i`.  Each iteration draws a candidate and returns it when no
`(user, candidate)` row exists; falling out of the loop raises `RuntimeError`,
modelled as `none`. -/
def genUniqueSlugFrom (r : Nat → Fin 36) (store : Store) (user : Nat) :
    Nat → Nat → Option String
  | 0, _ => none
  | k + 1, i =>
    let candidate := slugCandidate r i
    if slugExists store user candidate then genUniqueSlugFrom r store user k (i + 1)
    else some candidate

/-- The method `Link._generate_unique_slug(attempts=10)`. -/
def Link.generate_unique_slug (r : Nat → Fin 36) (store : Store) (user : Nat)
    (attempts : Nat) : Option String :=
  genUniqueSlugFrom r store user attempts 0

/-- The method `Link.save`: when `self.slug` is blank it is filled by
`_generate_unique_slug()` (whose `RuntimeError` propagates as
`allocationExhausted`), then `super().save()` INSERTs the row.  The code has
no handler around the INSERT, so a constraint violation propagates as
`integrityError`. -/
def Link.save (r : Nat → Fin 36) (store : Store) (user : Nat)
    (slug : String) (target_url : String) : Except AllocError Store :=
  if slug = "" then
    match Link.generate_unique_slug r store user 10 with
    | none => .error .allocationExhausted
    | some s => dbInsert store ⟨user, s, target_url⟩
  else dbInsert store ⟨user, slug, target_url⟩

/-- Whether a character is admitted by the field validator
`RegexValidator(regex=r"^[a-z0-9_-]+$")` on `Link.slug`. -/
def allowedSlugChar (c : Char) : Bool :=
  ('a' ≤ c && c ≤ 'z') || ('0' ≤ c && c ≤ '9') || c == '_' || c == '-'

/-- Field-level validity of a submitted slug: the regex `^[a-z0-9_-]+$`
(nonempty, all characters allowed) together with `max_length=32` on the
`SlugField`. -/
def validSlugFormat (s : String) : Bool :=
  decide (0 < s.length) && decide (s.length ≤ 32) && s.data.all allowedSlugChar

/-- The link-creation flow of `LinkCreateView` with `LinkForm`: field
validators run first, then `LinkForm.clean_slug` rejects a slug the owner
already has, then `Link.save` stores the row (generating a slug when the
field was left blank). -/
def allocate (r : Nat → Fin 36) (store : Store) (user : Nat)
    (requested : String) (target_url : String) : Except AllocError Store :=
  if requested = "" then Link.save r store user "" target_url
  else if !validSlugFormat requested then .error .invalidSlugFormat
  else if slugExists store user requested then .error .slugAlreadyTaken
  else Link.save r store user requested target_url

/-- The link-creation flow where the store may be modified concurrently
between the existence checks and the INSERT performed by `super().save()`:
the checks read `storeAtCheck` while the INSERT runs against
`storeAtInsert`.  With `storeAtCheck = storeAtInsert` this is exactly the
sequential `allocate`. -/
def saveRaced (r : Nat → Fin 36) (storeAtCheck storeAtInsert : Store)
    (user : Nat) (slug : String) (target_url : String) : Except AllocError Store :=
  if slug = "" then
    match Link.generate_unique_slug r storeAtCheck user 10 with
    | none => .error .allocationExhausted
    | some s => dbInsert storeAtInsert ⟨user, s, target_url⟩
  else dbInsert storeAtInsert ⟨user, slug, target_url⟩

/-- One link-creation request: the caller's randomness stream, the owner,
the requested slug (empty string when the field was left blank) and the
target URL. -/
structure CreateReq where
  r : Nat → Fin 36
  user : Nat
  requested : String
  target_url : String

/-- Effect of one creation request on the store: a failed request (a
validation error, exhaustion, or `IntegrityError`) rolls back and leaves
the store unchanged. -/
def applyCreate (store : Store) (c : CreateReq) : Store :=
  match allocate c.r store c.user c.requested c.target_url with
  | .ok s' => s'
  | .error _ => store

/-- Effect of a sequence of creation requests, applied in order. -/
def applyCreates (ops : List CreateReq) (store : Store) : Store :=
  ops.foldl applyCreate store

/-- Number of stored rows carrying a given `(user, slug)` pair. -/
def countOwnerSlug (store : Store) (user : Nat) (slug : String) : Nat :=
  (store.filter (fun l => l.user == user && l.slug == slug)).length

/-- The first index below `attempts` whose candidate collides with no stored
`(user, candidate)` pair; `none` when every candidate collides. -/
def firstFreeIdx (r : Nat → Fin 36) (store : Store) (user : Nat)
    (attempts : Nat) : Option Nat :=
  (List.range attempts).find? (fun i => !slugExists store user (slugCandidate r i))

/-! ### Celery retry contract (src/core/tasks.py, src/links/tasks.py,
src/config/settings.py line 390) -/

/-- The setting `CELERY_TASK_MAX_RETRIES = env.int(..., default=3)`, the
`max_retries` bound passed to every delivery task via `retry_kwargs`. -/
def CELERY_TASK_MAX_RETRIES : Nat := 3

/-- Lifecycle phase of an enqueued task. -/
inductive TaskPhase where
  | pending
  | terminalFailed
  | succeeded
deriving DecidableEq, Repr

/-- Worker-side state of one enqueued task: its phase, the retry counter
`self.request.retries`, and the number of body executions so far. -/
structure TaskRun where
  phase : TaskPhase
  retries : Nat
  execCount : Nat
deriving DecidableEq, Repr

/-- State at enqueue time: pending, no retries consumed, never executed. -/
def initialRun : TaskRun := ⟨.pending, 0, 0⟩

/-- One scheduler step for a task whose body raises on every execution,
under `autoretry_for=(Exception,)` with bound `maxRetries`: the body runs
(one more execution), raises, and Celery retries it while
`self.request.retries < max_retries`; once the retries are exhausted the
failure is terminal.  Terminal states are absorbing: the task is not run
again. -/
def stepAlwaysFailing (maxRetries : Nat) (st : TaskRun) : TaskRun :=
  match st.phase with
  | .pending =>
    if st.retries < maxRetries then ⟨.pending, st.retries + 1, st.execCount + 1⟩
    else ⟨.terminalFailed, st.retries, st.execCount + 1⟩
  | _ => st

/-- The state after `n` scheduler steps of an always-failing task. -/
def runAlwaysFailing (maxRetries : Nat) : Nat → TaskRun
  | 0 => initialRun
  | n + 1 => stepAlwaysFailing maxRetries (runAlwaysFailing maxRetries n)

/-! ### Delivery task bodies (src/core/tasks.py, src/links/tasks.py) -/

/-- A stored `User` row: primary key and email address. -/
structure UserRec where
  id : Nat
  email : String
deriving DecidableEq, Repr

/-- A stored `Click` row, as created by `record_link_click`. -/
structure ClickRec where
  link_id : Nat
  referrer : String
  user_agent : String
  ip_address : Option String
deriving DecidableEq, Repr

/-- An email handed to the delivery collaborator `send_templated_email`,
carrying its subject and its recipient address (the `to` argument). -/
structure EmailMsg where
  subject : String
  toAddr : String
deriving DecidableEq, Repr

/-- Severity class of an emitted log record. -/
inductive LogLevel where
  | debug
  | info
  | warning
  | error
deriving DecidableEq, Repr

/-- The state a task body can read and write: the user table, the set of
existing link ids, the stored clicks, the outgoing mailbox, and the
severity classes of emitted log records (newest first). -/
structure World where
  users : List UserRec
  links : List Nat
  clicks : List ClickRec
  outbox : List EmailMsg
  logs : List LogLevel
deriving DecidableEq, Repr

/-- Outcome of one execution of a task body: the state it left behind and
whether it raised (which is what triggers `autoretry_for=(Exception,)`). -/
structure BodyResult where
  world : World
  raised : Bool
deriving DecidableEq, Repr

/-- The lookup `User.objects.get(id=user_id)`, as an `Option`. -/
def findUser (w : World) (user_id : Nat) : Option UserRec :=
  w.users.find? (fun u => u.id == user_id)

/-- The body of `core.tasks.send_welcome_email`.  A missing user logs a
warning and returns without raising.  The external email collaborator is
modelled by `emailOk`: on success the email joins the outbox and an info
record is logged; on failure an error record is logged and the exception is
re-raised to trigger the retry mechanism. -/
def send_welcome_email (emailOk : Bool) (w : World) (user_id : Nat)
    (login_url : String) : BodyResult :=
  match findUser w user_id with
  | none => ⟨{ w with logs := .warning :: w.logs }, false⟩
  | some user =>
    if emailOk then
      ⟨{ w with outbox := ⟨"Welcome to Django SaaS", user.email⟩ :: w.outbox,
                logs := .info :: w.logs }, false⟩
    else ⟨{ w with logs := .error :: w.logs }, true⟩

/-- The body of `core.tasks.send_password_reset_email`, identical in shape
to the welcome email: warning and normal return when the user is missing,
info on delivery, error plus re-raise on delivery failure. -/
def send_password_reset_email (emailOk : Bool) (w : World) (user_id : Nat)
    (reset_link : String) : BodyResult :=
  match findUser w user_id with
  | none => ⟨{ w with logs := .warning :: w.logs }, false⟩
  | some user =>
    if emailOk then
      ⟨{ w with outbox := ⟨"Password Reset Request", user.email⟩ :: w.outbox,
                logs := .info :: w.logs }, false⟩
    else ⟨{ w with logs := .error :: w.logs }, true⟩

/-- The body of `links.tasks.record_link_click`: a missing link logs a
warning and returns; otherwise exactly one `Click` row is created and a
debug record logged. -/
def record_link_click (w : World) (link_id : Nat) (referrer : String)
    (user_agent : String) (ip_address : Option String) : BodyResult :=
  if w.links.contains link_id then
    ⟨{ w with clicks := ⟨link_id, referrer, user_agent, ip_address⟩ :: w.clicks,
              logs := .debug :: w.logs }, false⟩
  else ⟨{ w with logs := .warning :: w.logs }, false⟩

/-- What the worker does with a finished execution under
`autoretry_for=(Exception,)`. -/
inductive WorkerOutcome where
  | completed
  | retryScheduled
  | terminalFailure
deriving DecidableEq, Repr

/-- Celery dispatch on the body's outcome: a raise is consumed and turned
into a scheduled retry while `retries < max_retries`, into a terminal
failure afterwards; a normal return completes the task.  In no case does an
exception reach the enqueuing request, which already returned at `.delay`. -/
def workerOutcome (res : BodyResult) (retries maxRetries : Nat) : WorkerOutcome :=
  if res.raised then
    if retries < maxRetries then .retryScheduled else .terminalFailure
  else .completed

/-! ### The exception clause of LinkPublicRedirectView
(src/links/views.py, line 163) -/

/-- Tokens of a Python `except` clause header.  A dotted name such as
`User.DoesNotExist` is a single `name` token here, since its internal
structure is irrelevant to the clause grammar. -/
inductive PyTok where
  | kwExcept
  | kwAs
  | name (s : String)
  | comma
  | colon
  | lparen
  | rparen
deriving DecidableEq, Repr

/-- Continuation after the closing parenthesis of a parenthesized exception
list: `) [as NAME] :`. -/
def afterParen : List PyTok → Bool
  | [.rparen, .colon] => true
  | [.rparen, .kwAs, .name _, .colon] => true
  | _ => false

/-- A parenthesized exception list after the opening parenthesis:
`NAME (, NAME)* [,] ) [as NAME] :`. -/
def parenList : List PyTok → Bool
  | .name _ :: .comma :: .rparen :: rest => afterParen (.rparen :: rest)
  | .name _ :: .comma :: rest => parenList rest
  | .name _ :: rest => afterParen rest
  | _ => false

/-- Continuation after the `except` keyword, following the Python 3 grammar
`except_block: except [expression [as NAME]] :` — the expression slot takes
a single name or a parenthesized list, never an unparenthesized
comma-separated list (CPython rejects that with the SyntaxError message
that multiple exception types must be parenthesized). -/
def exceptRest : List PyTok → Bool
  | [.colon] => true
  | [.name _, .colon] => true
  | [.name _, .kwAs, .name _, .colon] => true
  | .lparen :: rest => parenList rest
  | _ => false

/-- Whether a token sequence is a well-formed Python 3 `except` clause
header. -/
def py3ExceptClauseValid : List PyTok → Bool
  | .kwExcept :: rest => exceptRest rest
  | _ => false

/-- The clause exactly as written at src/links/views.py line 163:
`except User.DoesNotExist, Link.DoesNotExist:`. -/
def linksViewsExceptClause : List PyTok :=
  [.kwExcept, .name "User.DoesNotExist", .comma, .name "Link.DoesNotExist", .colon]

/-- The parenthesized form of the same clause,
`except (User.DoesNotExist, Link.DoesNotExist):`, which Python 3 accepts. -/
def parenthesizedExceptClause : List PyTok :=
  [.kwExcept, .lparen, .name "User.DoesNotExist", .comma,
   .name "Link.DoesNotExist", .rparen, .colon]

/-! ### Supporting lemmas -/

/-- A fixed randomness stream used by concrete witnesses: every draw is the
first alphabet character. -/
def rZero : Nat → Fin 36 := fun _ => 0

/-- A concrete pair of creation requests: the owners 0 and 1 each request
the literal slug "my-link". -/
def demoOps : List CreateReq :=
  [⟨rZero, 0, "my-link", "https://alice.example"⟩,
   ⟨rZero, 1, "my-link", "https://bob.example"⟩]

lemma slugChar_mem : ∀ k : Fin 36, SLUG_ALPHABET.contains (slugChar k) = true := by
  decide

lemma generate_slug_length (r : Nat → Fin 36) (n : Nat) :
    (generate_slug r n).length = n := by
  simp [generate_slug, String.length]

lemma generate_slug_all (r : Nat → Fin 36) (n : Nat) :
    (generate_slug r n).data.all (fun c => SLUG_ALPHABET.contains c) = true := by
  rw [List.all_eq_true]
  intro c hc
  obtain ⟨i, _, rfl⟩ := List.mem_map.mp hc
  exact slugChar_mem (r i)

lemma slugCandidate_length (r : Nat → Fin 36) (i : Nat) :
    (slugCandidate r i).length = SLUG_LENGTH :=
  generate_slug_length _ _

lemma genUniqueSlugFrom_eq (r : Nat → Fin 36) (store : Store) (user : Nat) :
    ∀ (k i : Nat),
      genUniqueSlugFrom r store user k i =
        ((List.range' i k).find?
          (fun j => !slugExists store user (slugCandidate r j))).map (slugCandidate r)
  | 0, i => by simp [genUniqueSlugFrom]
  | k + 1, i => by
    rw [List.range'_succ]
    by_cases h : slugExists store user (slugCandidate r i)
    · rw [List.find?_cons_of_neg _ (by simp [h])]
      simpa [genUniqueSlugFrom, h] using genUniqueSlugFrom_eq r store user k (i + 1)
    · rw [List.find?_cons_of_pos _ (by simp [h])]
      simp [genUniqueSlugFrom, h]

lemma generate_unique_slug_eq (r : Nat → Fin 36) (store : Store) (user : Nat) :
    Link.generate_unique_slug r store user 10 =
      (firstFreeIdx r store user 10).map (slugCandidate r) := by
  rw [Link.generate_unique_slug, firstFreeIdx, List.range_eq_range']
  exact genUniqueSlugFrom_eq r store user 10 0

lemma countOwnerSlug_cons (l : LinkRec) (store : Store) (user : Nat) (slug : String) :
    countOwnerSlug (l :: store) user slug =
      (if l.user == user && l.slug == slug then 1 else 0) +
        countOwnerSlug store user slug := by
  by_cases h : (l.user == user && l.slug == slug) = true
  · simp [countOwnerSlug, List.filter_cons, h]
    omega
  · simp [countOwnerSlug, List.filter_cons, h]

lemma countOwnerSlug_eq_zero_of_not_exists {store : Store} {user : Nat} {slug : String}
    (h : slugExists store user slug = false) : countOwnerSlug store user slug = 0 := by
  rw [countOwnerSlug, List.length_eq_zero, List.filter_eq_nil_iff]
  intro l hl
  rw [slugExists, List.any_eq_false] at h
  exact h l hl

lemma dbInsert_preserves {store : Store} {l : LinkRec}
    (hs : ∀ u s, countOwnerSlug store u s ≤ 1) {store' : Store}
    (h : dbInsert store l = .ok store') : ∀ u s, countOwnerSlug store' u s ≤ 1 := by
  rw [dbInsert] at h
  by_cases hex : slugExists store l.user l.slug
  · simp [hex] at h
  · rw [if_neg (by simp [hex])] at h
    cases h
    intro u s
    rw [countOwnerSlug_cons]
    by_cases hp : (l.user == u && l.slug == s) = true
    · have h1 : l.user = u := eq_of_beq ((Bool.and_eq_true _ _).mp hp).1
      have h2 : l.slug = s := eq_of_beq ((Bool.and_eq_true _ _).mp hp).2
      subst h1; subst h2
      have hz : countOwnerSlug store l.user l.slug = 0 :=
        countOwnerSlug_eq_zero_of_not_exists (by simpa using hex)
      simp [hp, hz]
    · rw [if_neg hp]
      have := hs u s
      omega

lemma save_ok_cases {r : Nat → Fin 36} {store : Store} {user : Nat}
    {slug target : String} {store' : Store}
    (h : Link.save r store user slug target = .ok store') :
    ∃ l, dbInsert store l = .ok store' := by
  rw [Link.save] at h
  by_cases hb : slug = ""
  · simp only [hb, if_pos] at h
    cases hgen : Link.generate_unique_slug r store user 10 with
    | none => simp [hgen] at h
    | some s => rw [hgen] at h; exact ⟨_, h⟩
  · rw [if_neg hb] at h
    exact ⟨_, h⟩

lemma allocate_ok_cases {r : Nat → Fin 36} {store : Store} {user : Nat}
    {requested target : String} {store' : Store}
    (h : allocate r store user requested target = .ok store') :
    ∃ l, dbInsert store l = .ok store' := by
  rw [allocate] at h
  split_ifs at h with h1 h2 h3
  all_goals exact save_ok_cases h

lemma applyCreate_preserves {store : Store}
    (hs : ∀ u s, countOwnerSlug store u s ≤ 1) (c : CreateReq) :
    ∀ u s, countOwnerSlug (applyCreate store c) u s ≤ 1 := by
  cases halloc : allocate c.r store c.user c.requested c.target_url with
  | ok s' =>
    obtain ⟨l, hl⟩ := allocate_ok_cases halloc
    simpa [applyCreate, halloc] using dbInsert_preserves hs hl
  | error e => simpa [applyCreate, halloc] using hs

lemma applyCreates_preserves (ops : List CreateReq) :
    ∀ store : Store, (∀ u s, countOwnerSlug store u s ≤ 1) →
      ∀ u s, countOwnerSlug (applyCreates ops store) u s ≤ 1 := by
  induction ops with
  | nil => intro store hs; simpa [applyCreates] using hs
  | cons c ops ih =>
    intro store hs
    simpa [applyCreates, List.foldl_cons] using
      ih (applyCreate store c) (applyCreate_preserves hs c)

lemma runAlwaysFailing_le (maxRetries : Nat) :
    ∀ n, n ≤ maxRetries → runAlwaysFailing maxRetries n = ⟨.pending, n, n⟩
  | 0, _ => rfl
  | n + 1, h => by
    rw [runAlwaysFailing, runAlwaysFailing_le maxRetries n (Nat.le_of_succ_le h)]
    simp [stepAlwaysFailing, Nat.lt_of_succ_le h]

lemma runAlwaysFailing_terminal (maxRetries : Nat) :
    runAlwaysFailing maxRetries (maxRetries + 1) =
      ⟨.terminalFailed, maxRetries, maxRetries + 1⟩ := by
  rw [runAlwaysFailing, runAlwaysFailing_le maxRetries maxRetries (Nat.le_refl _),
    stepAlwaysFailing]
  simp

lemma runAlwaysFailing_absorbed (maxRetries : Nat) :
    ∀ n, maxRetries + 1 ≤ n →
      runAlwaysFailing maxRetries n = ⟨.terminalFailed, maxRetries, maxRetries + 1⟩ := by
  intro n h
  induction n with
  | zero => omega
  | succ n ih =>
    rcases Nat.lt_or_ge n maxRetries.succ with hlt | hge
    · have hn : n + 1 = maxRetries + 1 := by omega
      rw [hn]; exact runAlwaysFailing_terminal maxRetries
    · rw [runAlwaysFailing, ih hge]
      rfl

/-! ### Claims -/

/-- Claim C1: after any sequence of create operations starting from the
empty store, at most one Link row with a given (owner, slug) pair exists —
the store-level constraint `unique_link_slug_per_user` rejects a duplicate
INSERT — while two different owners (0 and 1) may simultaneously hold rows
with the identical slug value "my-link". -/
theorem c1_per_owner_slug_uniqueness :
    (∀ (ops : List CreateReq) (user : Nat) (slug : String),
        countOwnerSlug (applyCreates ops []) user slug ≤ 1) ∧
    slugExists (applyCreates demoOps []) 0 "my-link" = true ∧
    slugExists (applyCreates demoOps []) 1 "my-link" = true := by
  refine ⟨fun ops user slug =>
    applyCreates_preserves ops [] (fun u s => by simp [countOwnerSlug]) user slug,
    by decide, by decide⟩

/-- Claim C2, counterexample: with `max_retries = CELERY_TASK_MAX_RETRIES
= 3`, an always-failing task reaches the terminal-failed phase with 4 body
executions — one more than the configured bound of 3, against the claim
that it is attempted exactly `max_attempts` times. -/
theorem c2_attempt_count_counterexample :
    (runAlwaysFailing CELERY_TASK_MAX_RETRIES 4).phase = .terminalFailed ∧
    (runAlwaysFailing CELERY_TASK_MAX_RETRIES 4).execCount = 4 ∧
    (4 : Nat) ≠ CELERY_TASK_MAX_RETRIES := by decide

/-- Claim C2, amended: an always-failing task is attempted exactly
`max_retries + 1` times — the initial execution plus `max_retries` retries;
from scheduler step `max_retries + 1` on it sits in the terminal-failed
phase with its execution count frozen at `max_retries + 1`, so it is never
attempted again. -/
theorem c2_retry_termination_amended (maxRetries n : Nat)
    (h : maxRetries + 1 ≤ n) :
    runAlwaysFailing maxRetries n =
      ⟨.terminalFailed, maxRetries, maxRetries + 1⟩ :=
  runAlwaysFailing_absorbed maxRetries n h

/-- Witness for the amended C2 theorem at `maxRetries = 3`, `n = 6`. -/
theorem c2_retry_termination_witness :
    runAlwaysFailing CELERY_TASK_MAX_RETRIES 6 =
      ⟨.terminalFailed, CELERY_TASK_MAX_RETRIES, CELERY_TASK_MAX_RETRIES + 1⟩ :=
  c2_retry_termination_amended CELERY_TASK_MAX_RETRIES 6 (by decide)

/-- Claim C3: for a nonempty requested slug — a character outside
[a-z0-9_-] or a length above 32 fails with invalidSlugFormat; a
well-formed slug the owner already holds fails with slugAlreadyTaken;
otherwise the requested slug is stored unchanged and the outcome does not
depend on the randomness stream, i.e. no generation occurs. -/
theorem c3_requested_slug_validation (r r' : Nat → Fin 36) (store : Store)
    (user : Nat) (s target : String) (hne : s ≠ "") :
    ((s.data.all allowedSlugChar = false ∨ 32 < s.length) →
      allocate r store user s target = .error .invalidSlugFormat) ∧
    (s.data.all allowedSlugChar = true → s.length ≤ 32 →
      slugExists store user s = true →
      allocate r store user s target = .error .slugAlreadyTaken) ∧
    (s.data.all allowedSlugChar = true → s.length ≤ 32 →
      slugExists store user s = false →
      allocate r store user s target = .ok (⟨user, s, target⟩ :: store) ∧
      allocate r store user s target = allocate r' store user s target) := by
  have hpos : 0 < s.length := by
    rcases s with ⟨data⟩
    cases data with
    | nil => exact absurd (by decide) hne
    | cons c cs => simp [String.length]
  refine ⟨?_, ?_, ?_⟩
  · intro hbad
    have hv : validSlugFormat s = false := by
      rcases hbad with hb | hb
      · simp [validSlugFormat, hb]
      · simp [validSlugFormat, Nat.not_le.mpr hb]
    rw [allocate, if_neg hne, if_pos (by simp [hv])]
  · intro hall hlen hex
    have hv : validSlugFormat s = true := by
      simp [validSlugFormat, hpos, hlen, hall]
    rw [allocate, if_neg hne, if_neg (by simp [hv]), if_pos hex]
  · intro hall hlen hex
    have hv : validSlugFormat s = true := by
      simp [validSlugFormat, hpos, hlen, hall]
    constructor
    · rw [allocate, if_neg hne, if_neg (by simp [hv]), if_neg (by simp [hex]),
        Link.save, if_neg hne, dbInsert]
      simp [hex]
    · rw [allocate, if_neg hne, allocate, if_neg hne, Link.save, if_neg hne,
        Link.save, if_neg hne]

/-- Witness for C3 at the three concrete inputs: an uppercase character,
an owner-held duplicate, and a fresh well-formed slug. -/
theorem c3_requested_slug_validation_witness :
    allocate rZero [] 0 "Bad_Slug" "t" = .error .invalidSlugFormat ∧
    allocate rZero [⟨0, "my-link", "u"⟩] 0 "my-link" "t" =
      .error .slugAlreadyTaken ∧
    allocate rZero [] 0 "my-link" "t" = .ok [⟨0, "my-link", "t"⟩] :=
  ⟨(c3_requested_slug_validation rZero rZero [] 0 "Bad_Slug" "t"
      (by decide)).1 (Or.inl (by decide)),
   (c3_requested_slug_validation rZero rZero [⟨0, "my-link", "u"⟩] 0
      "my-link" "t" (by decide)).2.1 (by decide) (by decide) (by decide),
   ((c3_requested_slug_validation rZero rZero [] 0 "my-link" "t"
      (by decide)).2.2 (by decide) (by decide) (by decide)).1⟩

/-- Claim C4: when the referenced entity no longer exists, each delivery
task body logs exactly one warning-class record, changes nothing else (no
email joins the outbox, no Click row is created), and returns without
raising, so the autoretry wrapper marks the execution completed and never
retries it. -/
theorem c4_missing_entity_noop (w : World) (emailOk : Bool)
    (user_id link_id : Nat)
    (login_url reset_link referrer user_agent : String)
    (ip : Option String) (retries : Nat)
    (hu : findUser w user_id = none)
    (hl : w.links.contains link_id = false) :
    send_welcome_email emailOk w user_id login_url =
      ⟨{ w with logs := .warning :: w.logs }, false⟩ ∧
    send_password_reset_email emailOk w user_id reset_link =
      ⟨{ w with logs := .warning :: w.logs }, false⟩ ∧
    record_link_click w link_id referrer user_agent ip =
      ⟨{ w with logs := .warning :: w.logs }, false⟩ ∧
    workerOutcome ⟨{ w with logs := .warning :: w.logs }, false⟩ retries
      CELERY_TASK_MAX_RETRIES = .completed := by
  refine ⟨?_, ?_, ?_, rfl⟩
  · rw [send_welcome_email, hu]
  · rw [send_password_reset_email, hu]
  · rw [record_link_click, hl]
    simp

/-- Witness for C4 on an empty world: user 7 and link 5 are absent. -/
theorem c4_missing_entity_noop_witness :
    record_link_click ⟨[], [], [], [], []⟩ 5 "" "" none =
      ⟨⟨[], [], [], [], [.warning]⟩, false⟩ :=
  (c4_missing_entity_noop ⟨[], [], [], [], []⟩ true 7 5 "" "" "" "" none 0
    (by decide) (by decide)).2.2.1

/-- Claim C5, counterexample: the password-reset run for a missing user
logs a warning-class record and returns normally, while the run for an
existing user with a failed delivery logs an error-class record and
raises; the two runs do not share a log-level class, refuting the claimed
outward indistinguishability as stated. -/
theorem c5_log_level_counterexample :
    (send_password_reset_email true ⟨[], [], [], [], []⟩ 7 "L").world.logs =
      [.warning] ∧
    (send_password_reset_email true ⟨[], [], [], [], []⟩ 7 "L").raised =
      false ∧
    (send_password_reset_email false
      ⟨[⟨7, "a@example.com"⟩], [], [], [], []⟩ 7 "L").world.logs =
      [.error] ∧
    (send_password_reset_email false
      ⟨[⟨7, "a@example.com"⟩], [], [], [], []⟩ 7 "L").raised = true ∧
    LogLevel.warning ≠ LogLevel.error := by decide

/-- Claim C5, amended: neither run propagates an exception out of the
worker — the missing-user run completes as a no-op and the
transient-failure raise is consumed by the autoretry wrapper, which
schedules a retry while retries remain — but the runs differ internally:
the missing user logs at warning without retrying, the failed delivery
logs at error and is retried. -/
theorem c5_anti_enumeration_amended (w w' : World) (uid : Nat)
    (reset_link : String) (u : UserRec) (retries : Nat)
    (h1 : findUser w uid = none) (h2 : findUser w' uid = some u)
    (h3 : retries < CELERY_TASK_MAX_RETRIES) :
    workerOutcome (send_password_reset_email true w uid reset_link) retries
      CELERY_TASK_MAX_RETRIES = .completed ∧
    workerOutcome (send_password_reset_email false w' uid reset_link) retries
      CELERY_TASK_MAX_RETRIES = .retryScheduled ∧
    (send_password_reset_email true w uid reset_link).world.logs =
      .warning :: w.logs ∧
    (send_password_reset_email false w' uid reset_link).world.logs =
      .error :: w'.logs := by
  have hA : send_password_reset_email true w uid reset_link =
      ⟨{ w with logs := .warning :: w.logs }, false⟩ := by
    rw [send_password_reset_email, h1]
  have hB : send_password_reset_email false w' uid reset_link =
      ⟨{ w' with logs := .error :: w'.logs }, true⟩ := by
    rw [send_password_reset_email, h2]
    rfl
  rw [hA, hB]
  refine ⟨rfl, ?_, rfl, rfl⟩
  simp [workerOutcome, h3]

/-- Witness for the amended C5 theorem on concrete worlds: user 7 absent
in the first, present in the second, at retry counter 0. -/
theorem c5_anti_enumeration_amended_witness :
    workerOutcome (send_password_reset_email true ⟨[], [], [], [], []⟩ 7 "L")
      0 CELERY_TASK_MAX_RETRIES = .completed ∧
    workerOutcome (send_password_reset_email false
      ⟨[⟨7, "a@example.com"⟩], [], [], [], []⟩ 7 "L")
      0 CELERY_TASK_MAX_RETRIES = .retryScheduled :=
  ⟨(c5_anti_enumeration_amended ⟨[], [], [], [], []⟩
      ⟨[⟨7, "a@example.com"⟩], [], [], [], []⟩ 7 "L" ⟨7, "a@example.com"⟩ 0
      (by decide) (by decide) (by decide)).1,
   (c5_anti_enumeration_amended ⟨[], [], [], [], []⟩
      ⟨[⟨7, "a@example.com"⟩], [], [], [], []⟩ 7 "L" ⟨7, "a@example.com"⟩ 0
      (by decide) (by decide) (by decide)).2.1⟩

/-- Claim C6: with a blank requested slug, the generation loop returns the
candidate at the first of at most 10 indices whose (owner, candidate) pair
is absent from the store, and when every one of the 10 candidates collides
Link.save fails with allocationExhausted (the RuntimeError), producing no
stored row. -/
theorem c6_generation_loop (r : Nat → Fin 36) (store : Store) (user : Nat)
    (target : String) :
    Link.generate_unique_slug r store user 10 =
      (firstFreeIdx r store user 10).map (slugCandidate r) ∧
    (firstFreeIdx r store user 10 = none →
      Link.save r store user "" target = .error .allocationExhausted) := by
  refine ⟨generate_unique_slug_eq r store user, fun hnone => ?_⟩
  rw [Link.save, if_pos rfl, generate_unique_slug_eq, hnone]
  rfl

/-- Witness for C6: with the constant stream every candidate is
"aaaaaaaaaa"; a store already holding it for owner 0 exhausts all 10
attempts. -/
theorem c6_generation_loop_witness :
    Link.save rZero [⟨0, "aaaaaaaaaa", "u"⟩] 0 "" "t" =
      .error .allocationExhausted :=
  (c6_generation_loop rZero [⟨0, "aaaaaaaaaa", "u"⟩] 0 "t").2 (by decide)

/-- Claim C7: generate_slug called with length n returns a string of
exactly n characters, each drawn from the 36-symbol alphabet
`SLUG_ALPHABET` (lowercase letters and digits). -/
theorem c7_generated_slug_validity (r : Nat → Fin 36) (n : Nat) :
    (generate_slug r n).length = n ∧
    (generate_slug r n).data.all (fun c => SLUG_ALPHABET.contains c) = true ∧
    SLUG_ALPHABET.length = 36 :=
  ⟨generate_slug_length r n, generate_slug_all r n, by decide⟩

/-- Claim C8, counterexample: with the constant stream, a generated slug
for a fresh owner is "aaaaaaaaaa" — its length is 10, not the claimed
default of 8, because the module constant is `SLUG_LENGTH = 10`. -/
theorem c8_default_length_counterexample :
    Link.generate_unique_slug rZero [] 0 10 = some "aaaaaaaaaa" ∧
    ("aaaaaaaaaa" : String).length ≠ 8 := by decide

/-- Claim C8, amended: every slug produced by the generation loop has
length `SLUG_LENGTH`, which equals 10, not 8. -/
theorem c8_generated_length_amended (r : Nat → Fin 36) (store : Store)
    (user : Nat) (s : String)
    (h : Link.generate_unique_slug r store user 10 = some s) :
    s.length = SLUG_LENGTH ∧ SLUG_LENGTH = 10 := by
  rw [generate_unique_slug_eq] at h
  cases hidx : firstFreeIdx r store user 10 with
  | none => rw [hidx] at h; simp at h
  | some i =>
    rw [hidx, Option.map_some'] at h
    cases h
    exact ⟨slugCandidate_length r i, rfl⟩

/-- Witness for the amended C8 theorem at the constant stream over the
empty store. -/
theorem c8_generated_length_amended_witness :
    ("aaaaaaaaaa" : String).length = SLUG_LENGTH ∧ SLUG_LENGTH = 10 :=
  c8_generated_length_amended rZero [] 0 "aaaaaaaaaa" (by decide)

/-- Claim C9, counterexample: when a conflicting row appears between the
existence check and the INSERT, the INSERT violates the uniqueness
constraint and the violation escapes Link.save unhandled as
integrityError — it is neither converted to slugAlreadyTaken for the
user-requested slug nor retried with a fresh candidate for the generated
one. -/
theorem c9_integrity_error_counterexample :
    saveRaced rZero [] [⟨0, "my-link", "u"⟩] 0 "my-link" "t" =
      .error .integrityError ∧
    saveRaced rZero [] [⟨0, "aaaaaaaaaa", "u"⟩] 0 "" "t" =
      .error .integrityError ∧
    AllocError.integrityError ≠ AllocError.slugAlreadyTaken :=
  ⟨rfl, rfl, by decide⟩

/-- Claim C9, amended: the save path performs only pre-insert existence
checks; whenever the row it INSERTs collides in the store seen at insert
time, the constraint violation is propagated unhandled as integrityError —
for a user-requested (nonempty) slug exactly as for a generated one. -/
theorem c9_integrity_error_amended (r : Nat → Fin 36)
    (storeAtCheck storeAtInsert : Store) (user : Nat) (s target c : String)
    (hs : s ≠ "") (hex : slugExists storeAtInsert user s = true)
    (hgen : Link.generate_unique_slug r storeAtCheck user 10 = some c)
    (hexc : slugExists storeAtInsert user c = true) :
    saveRaced r storeAtCheck storeAtInsert user s target =
      .error .integrityError ∧
    saveRaced r storeAtCheck storeAtInsert user "" target =
      .error .integrityError := by
  constructor
  · simp [saveRaced, hs, dbInsert, hex]
  · simp [saveRaced, hgen, dbInsert, hexc]

/-- Witness for the amended C9 theorem: the insert-time store holds both
the requested slug "my-link" and the generated candidate "aaaaaaaaaa". -/
theorem c9_integrity_error_amended_witness :
    saveRaced rZero [] [⟨0, "my-link", "u"⟩, ⟨0, "aaaaaaaaaa", "v"⟩] 0
      "my-link" "t" = .error .integrityError ∧
    saveRaced rZero [] [⟨0, "my-link", "u"⟩, ⟨0, "aaaaaaaaaa", "v"⟩] 0
      "" "t" = .error .integrityError :=
  c9_integrity_error_amended rZero []
    [⟨0, "my-link", "u"⟩, ⟨0, "aaaaaaaaaa", "v"⟩] 0 "my-link" "t"
    "aaaaaaaaaa" (by decide) (by decide) (by decide) (by decide)

/-- Claim C10: the clause written at src/links/views.py line 163,
`except User.DoesNotExist, Link.DoesNotExist:`, is not a well-formed
Python 3 except clause — the grammar only admits the parenthesized form,
which it does accept — so importing the module raises SyntaxError instead
of the view catching the two lookup exceptions and answering 404. -/
theorem c10_except_clause_syntax_error :
    py3ExceptClauseValid linksViewsExceptClause = false ∧
    py3ExceptClauseValid parenthesizedExceptClause = true := by decide

end DjangoMegaTutorial
